import Mathlib

/-!
Verification development for the hng-stage4-email-service repository.

Shallow embedding of the subsystems the specification talks about:
* `src/circuit_breaker.py` — the `CircuitBreaker` state machine;
* `src/consumer.py` — the consumer pipeline (`process_message`,
  `_process_email_async`, `_handle_failure`);
* `src/redis_client.py` — the idempotency ledger;
* `src/schemas.py` — queue-message normalization
  (`QueueEmailMessage.to_direct_email_request`, `DirectEmailRequest` validation);
* `src/template_service/` — template versioning and rendering.

Time is modelled as an integer supplied to each call (the source reads
`time.time()`); machine state is passed explicitly; exceptions become
`Except`/sum results.  Template texts are modelled as lists of segments
(literal or `\x7b\x7bvar\x7d\x7d` reference), the parsed form of what the
source handles with the regex in `TemplateRenderer.extract_variables`.
-/

namespace EmailService

/-! Section: circuit breaker (`src/circuit_breaker.py`) -/

inductive CircuitState where
  | closed
  | opened
  | halfOpen
deriving DecidableEq, Repr

structure CircuitBreaker where
  failure_threshold : Nat
  timeout : Int
  half_open_attempts : Nat
  state : CircuitState
  failure_count : Nat
  success_count : Nat
  last_failure_time : Int
  last_state_change_time : Int
deriving DecidableEq, Repr

/-- Source `CircuitBreaker.__init__`: state CLOSED, counters zero, `last_failure_time = 0`. -/
def CircuitBreaker.init (failure_threshold : Nat) (timeout : Int)
    (half_open_attempts : Nat) (now : Int) : CircuitBreaker :=
  { failure_threshold := failure_threshold
    timeout := timeout
    half_open_attempts := half_open_attempts
    state := CircuitState.closed
    failure_count := 0
    success_count := 0
    last_failure_time := 0
    last_state_change_time := now }

/-- Source `CircuitBreaker._transition_to_open`: sets state OPEN; the counters are
not touched (the source only updates `last_state_change_time`). -/
def CircuitBreaker.transition_to_open (cb : CircuitBreaker) (now : Int) : CircuitBreaker :=
  { cb with state := CircuitState.opened, last_state_change_time := now }

/-- Source `CircuitBreaker._transition_to_half_open`: state HALF_OPEN, both counters reset. -/
def CircuitBreaker.transition_to_half_open (cb : CircuitBreaker) (now : Int) : CircuitBreaker :=
  { cb with state := CircuitState.halfOpen, success_count := 0, failure_count := 0,
            last_state_change_time := now }

/-- Source `CircuitBreaker._transition_to_closed`: state CLOSED, both counters reset. -/
def CircuitBreaker.transition_to_closed (cb : CircuitBreaker) (now : Int) : CircuitBreaker :=
  { cb with state := CircuitState.closed, failure_count := 0, success_count := 0,
            last_state_change_time := now }

/-- Source `CircuitBreaker._check_circuit_state`: in OPEN, either transitions to
HALF_OPEN (timeout elapsed) or raises `CircuitBreakerOpenError` (`.error ()`). -/
def CircuitBreaker.check_circuit_state (cb : CircuitBreaker) (now : Int) :
    Except Unit CircuitBreaker :=
  match cb.state with
  | CircuitState.opened =>
      if now - cb.last_failure_time ≥ cb.timeout then
        Except.ok (cb.transition_to_half_open now)
      else
        Except.error ()
  | _ => Except.ok cb

/-- Source `CircuitBreaker._on_success`: in HALF_OPEN count successes and close at
`half_open_attempts`; otherwise reset the failure count. -/
def CircuitBreaker.on_success (cb : CircuitBreaker) (now : Int) : CircuitBreaker :=
  match cb.state with
  | CircuitState.halfOpen =>
      let cb' := { cb with success_count := cb.success_count + 1 }
      if cb'.success_count ≥ cb'.half_open_attempts then
        cb'.transition_to_closed now
      else
        cb'
  | _ => { cb with failure_count := 0 }

/-- Source `CircuitBreaker._on_failure`: count the failure, stamp
`last_failure_time`, open from CLOSED at the threshold, open from HALF_OPEN
on any failure. -/
def CircuitBreaker.on_failure (cb : CircuitBreaker) (now : Int) : CircuitBreaker :=
  let cb' := { cb with failure_count := cb.failure_count + 1, last_failure_time := now }
  match cb'.state with
  | CircuitState.closed =>
      if cb'.failure_count ≥ cb'.failure_threshold then
        cb'.transition_to_open now
      else
        cb'
  | CircuitState.halfOpen => cb'.transition_to_open now
  | CircuitState.opened => cb'

/-- Outcome of one `call`/`call_async`: the wrapped operation ran and
succeeded or raised, or the call was rejected with `CircuitBreakerOpenError`
without the operation being invoked. -/
inductive CallOutcome where
  | result (ok : Bool)
  | rejected
deriving DecidableEq, Repr

/-- Source `CircuitBreaker.call` / `call_async`: check state, invoke the operation
(whose success is the oracle `opSucceeds`), record the outcome.  In the
rejected branch the operation result is never consulted. -/
def CircuitBreaker.call (cb : CircuitBreaker) (now : Int) (opSucceeds : Bool) :
    CallOutcome × CircuitBreaker :=
  match cb.check_circuit_state now with
  | Except.error _ => (CallOutcome.rejected, cb)
  | Except.ok cb1 =>
      if opSucceeds then (CallOutcome.result true, cb1.on_success now)
      else (CallOutcome.result false, cb1.on_failure now)

/-- One trace event: a call attempt at time `now` whose wrapped operation
(if invoked) succeeds iff `ok`. -/
structure CbEvent where
  now : Int
  ok : Bool
deriving DecidableEq, Repr

def CircuitBreaker.runTrace (cb : CircuitBreaker) : List CbEvent → CircuitBreaker
  | [] => cb
  | e :: es => ((cb.call e.now e.ok).2).runTrace es

/-- The count the claim speaks of: consecutive recorded failures since the
last reset or close — incremented on each recorded failure, reset to 0 by a
recorded success when the breaker (after recording) is Closed; rejected
calls record nothing. -/
def CircuitBreaker.runTraceCount (cb : CircuitBreaker) (count : Nat) :
    List CbEvent → CircuitBreaker × Nat
  | [] => (cb, count)
  | e :: es =>
      let (out, cb') := cb.call e.now e.ok
      let count' :=
        match out with
        | CallOutcome.rejected => count
        | CallOutcome.result true => if cb'.state = CircuitState.closed then 0 else count
        | CallOutcome.result false => count + 1
      cb'.runTraceCount count' es

end EmailService

namespace EmailService

theorem runTrace_append (cb : CircuitBreaker) (l1 l2 : List CbEvent) :
    cb.runTrace (l1 ++ l2) = (cb.runTrace l1).runTrace l2 := by
  induction l1 generalizing cb with
  | nil => rfl
  | cons e es ih => simp [CircuitBreaker.runTrace, ih]

/-- In HALF_OPEN, `k` consecutive successes that stay short of
`half_open_attempts` leave the breaker HALF_OPEN, accumulating the success
count. -/
theorem halfOpen_success_run (now : Int) (k : Nat) :
    ∀ cb : CircuitBreaker, cb.state = CircuitState.halfOpen →
      cb.success_count + k < cb.half_open_attempts →
      cb.runTrace (List.replicate k ⟨now, true⟩) =
        { cb with success_count := cb.success_count + k } := by
  induction k with
  | zero => intro cb h _; simp [CircuitBreaker.runTrace]
  | succ k ih =>
      intro cb h hlt
      have hstep : (cb.call now true).2 = { cb with success_count := cb.success_count + 1 } := by
        have hnot : ¬ (cb.success_count + 1 ≥ cb.half_open_attempts) := by omega
        simp [CircuitBreaker.call, CircuitBreaker.check_circuit_state, h,
          CircuitBreaker.on_success, hnot]
      simp only [List.replicate]
      rw [CircuitBreaker.runTrace, hstep]
      rw [ih { cb with success_count := cb.success_count + 1 } h (by simp; omega)]
      have : cb.success_count + 1 + k = cb.success_count + (k + 1) := by omega
      simp [this]

/-- In HALF_OPEN, exactly enough consecutive successes (`success_count`
reaching `half_open_attempts`) close the breaker and zero both counters. -/
theorem halfOpen_success_closes (now : Int) (k : Nat) (cb : CircuitBreaker)
    (h : cb.state = CircuitState.halfOpen)
    (he : cb.success_count + (k + 1) = cb.half_open_attempts) :
    cb.runTrace (List.replicate (k + 1) ⟨now, true⟩) =
      { cb with state := CircuitState.closed, failure_count := 0, success_count := 0,
                last_state_change_time := now } := by
  rw [List.replicate_succ', runTrace_append]
  rw [halfOpen_success_run now k cb h (by omega)]
  have hge : ({ cb with success_count := cb.success_count + k } :
      CircuitBreaker).success_count + 1 ≥ cb.half_open_attempts := by simp; omega
  simp [CircuitBreaker.runTrace, CircuitBreaker.call, CircuitBreaker.check_circuit_state, h,
    CircuitBreaker.on_success, hge, CircuitBreaker.transition_to_closed]

end EmailService

namespace EmailService

/-- A breaker in CLOSED state, threshold 2, used by witnesses. -/
def cbClosedEx : CircuitBreaker := CircuitBreaker.init 2 30 1 0

/-- A breaker in OPEN state with a recent failure, used by witnesses. -/
def cbOpenEx : CircuitBreaker :=
  { cbClosedEx with state := CircuitState.opened, failure_count := 2, last_failure_time := 0 }

/-- A breaker in HALF_OPEN state, used by witnesses. -/
def cbHalfEx : CircuitBreaker :=
  { cbClosedEx with state := CircuitState.halfOpen, half_open_attempts := 2 }

/-- C3 counterexample: with `failure_threshold = 2`, `half_open_attempts = 2`,
`timeout = 30`, the trace fail@0, fail@0, success@100 leaves the breaker
HALF_OPEN while the count of consecutive recorded failures since the last
reset or close is 2 ≥ threshold — refuting "Open iff the count reached
`failureThreshold`". -/
theorem c3_open_iff_threshold_counterexample :
    ¬ (((CircuitBreaker.runTraceCount (CircuitBreaker.init 2 30 2 0) 0
          [⟨0, false⟩, ⟨0, false⟩, ⟨100, true⟩]).1.state = CircuitState.opened) ↔
        (CircuitBreaker.runTraceCount (CircuitBreaker.init 2 30 2 0) 0
          [⟨0, false⟩, ⟨0, false⟩, ⟨100, true⟩]).2 ≥ 2) := by
  decide

/-- C3 (amended): a failure in CLOSED opens the breaker iff it brings the
failure count to `failure_threshold`; a success in CLOSED resets the failure
count to 0; any failure in HALF_OPEN opens the breaker (so Open is not
equivalent to the consecutive-failure count having reached the threshold);
while OPEN with elapsed time since `last_failure_time` below `timeout`,
every call is rejected with `CircuitBreakerOpenError` with the state
untouched and without the wrapped operation being invoked (the outcome is
independent of the operation). -/
theorem c3_breaker_transitions (cb : CircuitBreaker) (now : Int) (b : Bool) :
    (cb.state = CircuitState.closed →
        (((cb.call now false).2.state = CircuitState.opened) ↔
          cb.failure_count + 1 ≥ cb.failure_threshold)) ∧
    (cb.state = CircuitState.closed →
        (cb.call now true).2 = { cb with failure_count := 0 }) ∧
    (cb.state = CircuitState.halfOpen →
        (cb.call now false).2.state = CircuitState.opened) ∧
    (cb.state = CircuitState.opened → now - cb.last_failure_time < cb.timeout →
        cb.call now b = (CallOutcome.rejected, cb)) := by
  refine ⟨?_, ?_, ?_, ?_⟩
  · intro h
    simp only [CircuitBreaker.call, CircuitBreaker.check_circuit_state, h,
      CircuitBreaker.on_failure, CircuitBreaker.transition_to_open]
    by_cases hth : cb.failure_threshold ≤ cb.failure_count + 1 <;> simp [hth]
  · intro h
    simp [CircuitBreaker.call, CircuitBreaker.check_circuit_state, h,
      CircuitBreaker.on_success]
  · intro h
    simp [CircuitBreaker.call, CircuitBreaker.check_circuit_state, h,
      CircuitBreaker.on_failure, CircuitBreaker.transition_to_open]
  · intro h hlt
    have : ¬ (now - cb.last_failure_time ≥ cb.timeout) := by omega
    simp [CircuitBreaker.call, CircuitBreaker.check_circuit_state, h, this]

/-- Witness for `c3_breaker_transitions` at concrete breakers. -/
theorem c3_breaker_transitions_witness :
    (((cbClosedEx.call 5 false).2.state = CircuitState.opened) ↔
        cbClosedEx.failure_count + 1 ≥ cbClosedEx.failure_threshold) ∧
    ((cbClosedEx.call 5 true).2 = { cbClosedEx with failure_count := 0 }) ∧
    ((cbHalfEx.call 5 false).2.state = CircuitState.opened) ∧
    (cbOpenEx.call 5 true = (CallOutcome.rejected, cbOpenEx)) :=
  ⟨(c3_breaker_transitions cbClosedEx 5 true).1 rfl,
   (c3_breaker_transitions cbClosedEx 5 true).2.1 rfl,
   (c3_breaker_transitions cbHalfEx 5 true).2.2.1 rfl,
   (c3_breaker_transitions cbOpenEx 5 true).2.2.2 rfl (by decide)⟩

/-- C4 counterexample: with `failure_threshold = 1`, `timeout = 30`,
`half_open_attempts = 2`, fail@0 opens the breaker, the call at 40 proceeds
in HALF_OPEN and succeeds, and the next failure at 40 during HALF_OPEN
returns the breaker to OPEN with `failure_count = 1` and
`success_count = 1` — the counters are not reset to zero as claimed. -/
theorem c4_halfopen_failure_counterexample :
    ((CircuitBreaker.runTrace (CircuitBreaker.init 1 30 2 0)
        [⟨0, false⟩, ⟨40, true⟩]).state = CircuitState.halfOpen) ∧
    ((CircuitBreaker.runTrace (CircuitBreaker.init 1 30 2 0)
        [⟨0, false⟩, ⟨40, true⟩, ⟨40, false⟩]).state = CircuitState.opened) ∧
    ¬ ((CircuitBreaker.runTrace (CircuitBreaker.init 1 30 2 0)
        [⟨0, false⟩, ⟨40, true⟩, ⟨40, false⟩]).failure_count = 0 ∧
       (CircuitBreaker.runTrace (CircuitBreaker.init 1 30 2 0)
        [⟨0, false⟩, ⟨40, true⟩, ⟨40, false⟩]).success_count = 0) := by
  decide

/-- C4 (amended): after the breaker has been OPEN for at least `timeout`,
the next call first transitions it to HALF_OPEN with both counters reset to
0; from HALF_OPEN, exactly `half_open_attempts` consecutive successes
transition it to CLOSED with both counters reset, while fewer leave it
HALF_OPEN; a single failure during HALF_OPEN transitions it back to OPEN
without resetting the counters — `failure_count` is incremented and
`success_count` keeps its value (both are reset only at the next transition
to HALF_OPEN). -/
theorem c4_halfopen_protocol (cb : CircuitBreaker) (now : Int) (k : Nat) :
    (cb.state = CircuitState.opened → now - cb.last_failure_time ≥ cb.timeout →
        cb.check_circuit_state now =
          Except.ok { cb with state := CircuitState.halfOpen, failure_count := 0,
                              success_count := 0, last_state_change_time := now }) ∧
    (cb.state = CircuitState.halfOpen → cb.success_count + (k + 1) = cb.half_open_attempts →
        cb.runTrace (List.replicate (k + 1) ⟨now, true⟩) =
          { cb with state := CircuitState.closed, failure_count := 0, success_count := 0,
                    last_state_change_time := now }) ∧
    (cb.state = CircuitState.halfOpen → cb.success_count + k < cb.half_open_attempts →
        cb.runTrace (List.replicate k ⟨now, true⟩) =
          { cb with success_count := cb.success_count + k }) ∧
    (cb.state = CircuitState.halfOpen →
        cb.call now false =
          (CallOutcome.result false,
           { cb with state := CircuitState.opened, failure_count := cb.failure_count + 1,
                     last_failure_time := now, last_state_change_time := now })) := by
  refine ⟨?_, ?_, ?_, ?_⟩
  · intro h hge
    simp [CircuitBreaker.check_circuit_state, h, hge, CircuitBreaker.transition_to_half_open]
  · intro h he
    exact halfOpen_success_closes now k cb h he
  · intro h hlt
    exact halfOpen_success_run now k cb h hlt
  · intro h
    simp [CircuitBreaker.call, CircuitBreaker.check_circuit_state, h,
      CircuitBreaker.on_failure, CircuitBreaker.transition_to_open]

/-- Witness for `c4_halfopen_protocol` at concrete breakers. -/
theorem c4_halfopen_protocol_witness :
    (cbOpenEx.check_circuit_state 60 =
        Except.ok { cbOpenEx with state := CircuitState.halfOpen, failure_count := 0,
                                  success_count := 0, last_state_change_time := 60 }) ∧
    (cbHalfEx.runTrace (List.replicate 2 ⟨5, true⟩) =
        { cbHalfEx with state := CircuitState.closed, failure_count := 0, success_count := 0,
                        last_state_change_time := 5 }) ∧
    (cbHalfEx.runTrace (List.replicate 1 ⟨5, true⟩) =
        { cbHalfEx with success_count := cbHalfEx.success_count + 1 }) ∧
    (cbHalfEx.call 5 false =
        (CallOutcome.result false,
         { cbHalfEx with state := CircuitState.opened,
                         failure_count := cbHalfEx.failure_count + 1,
                         last_failure_time := 5, last_state_change_time := 5 })) :=
  ⟨(c4_halfopen_protocol cbOpenEx 60 1).1 rfl (by decide),
   (c4_halfopen_protocol cbHalfEx 5 1).2.1 rfl (by decide),
   (c4_halfopen_protocol cbHalfEx 5 1).2.2.1 rfl (by decide),
   (c4_halfopen_protocol cbHalfEx 5 1).2.2.2 rfl⟩

end EmailService

namespace EmailService

/-! Section: queue message normalization (`src/schemas.py`)

Emails are modelled as plain strings (pydantic's `EmailStr` format check is
not modelled; no claim depends on it).  A `MsgData` is the decoded JSON body
of a queue message, projected onto the fields `QueueEmailMessage` declares;
`none` stands for an absent or `null` field. -/

/-- Python truthiness of an optional string: `None` and `""` are falsy. -/
def truthy : Option String → Bool
  | none => false
  | some s => s ≠ ""

/-- Python `a or b` on optional strings (first truthy operand, else `b`). -/
def pyOr (a b : Option String) : Option String :=
  if truthy a then a else b

/-- Python `a or dflt` where `dflt` is a string literal default. -/
def pyOrD (a : Option String) (dflt : String) : String :=
  match a with
  | some s => if s = "" then dflt else s
  | none => dflt

structure MsgData where
  request_id : Option String := none
  to_email : Option String := none
  from_email : Option String := none
  subject : Option String := none
  content : Option String := none
  html_content : Option String := none
  user_email : Option String := none
  email : Option String := none
  message : Option String := none
  title : Option String := none
  body : Option String := none
deriving DecidableEq, Repr

/-- Schema `DirectEmailRequest` after validation: `to_email`, `subject`, `content`
required, the rest optional. -/
structure DirectEmailRequest where
  to_email : String
  from_email : String
  subject : String
  content : String
  html_content : Option String
deriving DecidableEq, Repr

/-- Validation `DirectEmailRequest(**data)` (pydantic validation as done by
`AsyncEmailConsumer.process_message`): succeeds iff the three required
fields are present; extra keys are ignored; `from_email` falls back to the
field default. -/
def parseDirectEmailRequest (d : MsgData) : Option DirectEmailRequest :=
  match d.to_email, d.subject, d.content with
  | some t, some s, some c =>
      some { to_email := t, from_email := d.from_email.getD "noreply@company.com",
             subject := s, content := c, html_content := d.html_content }
  | _, _, _ => none

/-- Source `QueueEmailMessage.to_direct_email_request`: field-mapping fallback
chain with defaults; raises (`.error`) when no usable recipient resolves. -/
def to_direct_email_request (m : MsgData) : Except String DirectEmailRequest :=
  let recipient_email := pyOr m.to_email (pyOr m.user_email m.email)
  let email_subject := pyOrD m.subject (pyOrD m.title "Notification")
  let email_content := pyOrD m.content (pyOrD m.message
    (pyOrD m.body "You have a new notification"))
  if truthy recipient_email then
    match recipient_email with
    | some r =>
        Except.ok { to_email := r, from_email := pyOrD m.from_email "noreply@company.com",
                    subject := email_subject, content := email_content,
                    html_content := m.html_content }
    | none => Except.error "No valid email address found in message"
  else
    Except.error "No valid email address found in message"

/-- Spec-side resolution: first non-empty entry of a fallback chain.  Used
only to state C9 against `to_direct_email_request`. -/
def firstNonEmpty (l : List (Option String)) : Option String :=
  l.findSome? (fun o => if truthy o then o else none)

/-! Section: idempotency ledger (`src/redis_client.py`)

`connected` mirrors `self._connected and self.redis`; `opFails` injects a
raised exception inside the `try` of an operation (the source catches it
and returns `False`); `store` is the set of keys present in redis. -/

structure RedisState where
  connected : Bool
  opFails : Bool
  store : List String
deriving DecidableEq, Repr

/-- Source `RedisClient.is_processed`: `False` when not connected, `False` when the
operation raises, otherwise key existence.  Never raises. -/
def RedisState.is_processed (r : RedisState) (request_id : String) : Bool :=
  if ¬ r.connected then false
  else if r.opFails then false
  else r.store.contains ("processed:" ++ request_id)

/-- Source `RedisClient.mark_as_processed`: `False` (state unchanged) when not
connected or when the operation raises, otherwise `setex` the key and return
`True`.  Never raises. -/
def RedisState.mark_as_processed (r : RedisState) (request_id : String) :
    RedisState × Bool :=
  if ¬ r.connected then (r, false)
  else if r.opFails then (r, false)
  else ({ r with store := ("processed:" ++ request_id) :: r.store }, true)

/-! Section: delivery log (`src/models.py`) and consumer (`src/consumer.py`) -/

inductive EmailStatus where
  | pending
  | processing
  | sent
  | failed
  | bounced
deriving DecidableEq, Repr

structure EmailLog where
  request_id : String
  recipient : String
  subject : String
  body_text : String
  body_html : Option String
  status : EmailStatus
  retry_count : Nat
  error_message : Option String
deriving DecidableEq, Repr

/-- Update the first row with the given `request_id` (the `email_logs`
table keeps `request_id` unique, so at most one row matches). -/
def updateFirst (rid : String) (f : EmailLog → EmailLog) : List EmailLog → List EmailLog
  | [] => []
  | l :: ls => if l.request_id = rid then f l :: ls else l :: updateFirst rid f ls

def findLog (db : List EmailLog) (rid : String) : Option EmailLog :=
  db.find? (fun l => l.request_id = rid)

/-- Outcome of one transport attempt (`email_sender.send_email`): success,
`CircuitBreakerOpenError`, or any other raised error with its message. -/
inductive SendOutcome where
  | ok
  | circuitOpen
  | err (msg : String)
deriving DecidableEq, Repr

/-- Setting `settings.max_retry_attempts` (`src/config.py`). -/
def settings_max_retry_attempts : Nat := 3

/-- Source `AsyncEmailConsumer._process_email_async`.  Returns (success, db, redis,
transport attempts made).  The insert enforces the unique constraint on
`request_id`: a duplicate insert raises, landing in the generic `except`
branch (which marks the existing row Failed and bumps `retry_count`)
without any transport attempt.  On `CircuitBreakerOpenError` nothing is
written and `False` is returned; on any other transport error the row is
marked Failed with the error and `retry_count + 1`. -/
def process_email_async (redis : RedisState) (outcome : SendOutcome)
    (db : List EmailLog) (req : DirectEmailRequest) (rid : String) :
    Bool × List EmailLog × RedisState × List String :=
  if redis.is_processed rid then
    (true, db, redis, [])
  else if (findLog db rid).isSome then
    -- `db.add` + `commit` raises on the unique `request_id` constraint;
    -- the `except Exception` branch updates the existing row
    let db' := updateFirst rid (fun l =>
      { l with status := EmailStatus.failed,
               error_message := some "IntegrityError: duplicate request_id",
               retry_count := l.retry_count + 1 }) db
    (false, db', redis, [])
  else
    let email_log : EmailLog :=
      { request_id := rid, recipient := req.to_email, subject := req.subject,
        body_text := req.content, body_html := req.html_content,
        status := EmailStatus.processing, retry_count := 0, error_message := none }
    let db1 := db ++ [email_log]
    match outcome with
    | SendOutcome.ok =>
        let db2 := updateFirst rid (fun l => { l with status := EmailStatus.sent }) db1
        let (redis', _) := redis.mark_as_processed rid
        (true, db2, redis', [rid])
    | SendOutcome.circuitOpen =>
        (false, db1, redis, [rid])
    | SendOutcome.err m =>
        let db2 := updateFirst rid (fun l =>
          { l with status := EmailStatus.failed, error_message := some m,
                   retry_count := l.retry_count + 1 }) db1
        (false, db2, redis, [rid])

set_option linter.unusedVariables false in
/-- Source `AsyncEmailConsumer._handle_failure`: reads the durable `retry_count`,
then overwrites it with 0 (the `Temporary fix` line in the source), and
publishes the raw payload to the failed queue only when that value reaches
`max_retry_attempts`; otherwise it only logs.  Returns the list of payloads
published to the dead-letter queue. -/
def handle_failure (max_retry_attempts : Nat) (db : List EmailLog)
    (rid : String) (data : MsgData) : List MsgData :=
  let retry_count := ((findLog db rid).map (fun l => l.retry_count)).getD 0
  let retry_count := 0  -- Temporary fix (verbatim behaviour of the source)
  if retry_count ≥ max_retry_attempts then [data] else []

/-- What happens to the broker message at the end of `process_message`:
`ack` via the `message.process()` auto-ack on normal exit, `requeue` via
`message.reject(requeue=True)` in the `except` branch. -/
inductive QueueAction where
  | ack
  | requeue
deriving DecidableEq, Repr

structure ProcessResult where
  action : QueueAction
  db : List EmailLog
  redis : RedisState
  published : List MsgData
  attempts : List String
deriving DecidableEq, Repr

/-- Source `AsyncEmailConsumer.process_message`: validate with
`DirectEmailRequest(**data)` (a validation error is caught by the generic
`except`, which rejects with `requeue=True`); on validation success run
`_process_email_async` and, if it reports failure, `_handle_failure`; the
message is then acknowledged by the `message.process()` context manager. -/
def process_message (max_retry_attempts : Nat) (redis : RedisState)
    (outcome : SendOutcome) (db : List EmailLog) (data : MsgData) : ProcessResult :=
  match parseDirectEmailRequest data with
  | none => ⟨QueueAction.requeue, db, redis, [], []⟩
  | some req =>
      let rid := data.request_id.getD "unknown"
      let (success, db', redis', attempts) := process_email_async redis outcome db req rid
      if success then ⟨QueueAction.ack, db', redis', [], attempts⟩
      else ⟨QueueAction.ack, db', redis', handle_failure max_retry_attempts db' rid data, attempts⟩

/-- Repeated delivery of the same raw message (one `process_message` per
listed transport outcome), accumulating dead-letter publishes and transport
attempts. -/
def processRepeat (max_retry_attempts : Nat) (redis : RedisState)
    (outcomes : List SendOutcome) (db : List EmailLog) (data : MsgData) :
    List EmailLog × RedisState × List MsgData × List String :=
  match outcomes with
  | [] => (db, redis, [], [])
  | o :: os =>
      let r := process_message max_retry_attempts redis o db data
      let (db', redis', pub, att) := processRepeat max_retry_attempts r.redis os r.db data
      (db', redis', r.published ++ pub, r.attempts ++ att)

end EmailService

namespace EmailService

/-- A well-formed queue message, used in concrete scenarios. -/
def msgOk : MsgData :=
  { request_id := some "r1", to_email := some "user@example.com",
    subject := some "Welcome", content := some "Hello" }

/-- A queue message carrying no recipient under any of the fallback fields. -/
def msgNoRecipient : MsgData :=
  { request_id := some "r1", subject := some "s", content := some "c" }

/-- A connected, healthy ledger with an empty store. -/
def redisUp : RedisState := { connected := true, opFails := false, store := [] }

/-- A connected ledger that already marks `r1` done. -/
def redisMarkedR1 : RedisState :=
  { connected := true, opFails := false, store := ["processed:r1"] }

/-- The `DirectEmailRequest` that `msgOk` validates to. -/
def reqOk : DirectEmailRequest :=
  { to_email := "user@example.com", from_email := "noreply@company.com",
    subject := "Welcome", content := "Hello", html_content := none }

/-- C1: the dead-letter decision never consults the durable record —
`_handle_failure` overwrites the fetched `retry_count` with 0 (`Temporary
fix`), so with the configured `max_retry_attempts = 3` nothing is ever
published to the failed queue, whatever the DeliveryRecord says; concretely,
four deliveries of `msgOk` whose processing fails each time leave the record
Failed with `retry_count = 4` and publish nothing (and the transport is
attempted only once, the later inserts dying on the unique `request_id`
constraint). -/
theorem c1_dead_letter_unreachable :
    (∀ (db : List EmailLog) (rid : String) (data : MsgData),
        handle_failure settings_max_retry_attempts db rid data = []) ∧
    (processRepeat settings_max_retry_attempts redisUp
        [SendOutcome.err "smtp error", SendOutcome.err "smtp error",
         SendOutcome.err "smtp error", SendOutcome.err "smtp error"] [] msgOk =
      ([{ request_id := "r1", recipient := "user@example.com", subject := "Welcome",
          body_text := "Hello", body_html := none, status := EmailStatus.failed,
          retry_count := 4,
          error_message := some "IntegrityError: duplicate request_id" }],
       redisUp, [], ["r1"])) := by
  exact ⟨fun db rid data => rfl, by decide⟩

/-- C2: a processing attempt rejected by the circuit breaker leaves the
DeliveryRecord in Processing with no error and `retry_count = 0` and does
not count against the retry budget — but the message is then acknowledged
(auto-ack of `message.process()`), not returned to the queue, despite the
"Will retry later" log. -/
theorem c2_circuit_open_acks_message :
    process_message settings_max_retry_attempts redisUp SendOutcome.circuitOpen [] msgOk =
      { action := QueueAction.ack,
        db := [{ request_id := "r1", recipient := "user@example.com", subject := "Welcome",
                 body_text := "Hello", body_html := none,
                 status := EmailStatus.processing, retry_count := 0,
                 error_message := none }],
        redis := redisUp, published := [], attempts := ["r1"] } := by
  decide

/-- C8 counterexample: the message with no usable recipient is rejected back
to the queue (`requeue`) with nothing published to the dead-letter
destination and no record created — refuting "routed to the dead-letter
destination immediately and never requeued". -/
theorem c8_no_recipient_requeued_counterexample :
    process_message settings_max_retry_attempts redisUp SendOutcome.ok [] msgNoRecipient =
      { action := QueueAction.requeue, db := [], redis := redisUp,
        published := [], attempts := [] } := by
  decide

/-- C8 (amended): a queue message with no `to_email` fails
`DirectEmailRequest` validation (the consumer never applies the
field-mapping fallback chain of `to_direct_email_request`), and the generic
exception handler rejects it back to the queue with `requeue=True`; it is
never published to the dead-letter destination and no DeliveryRecord is
touched. -/
theorem c8_validation_failure_requeues (max_retry_attempts : Nat)
    (redis : RedisState) (outcome : SendOutcome) (db : List EmailLog)
    (data : MsgData) (h : data.to_email = none) :
    process_message max_retry_attempts redis outcome db data =
      { action := QueueAction.requeue, db := db, redis := redis,
        published := [], attempts := [] } := by
  simp [process_message, parseDirectEmailRequest, h]

/-- Witness for `c8_validation_failure_requeues` at a concrete message. -/
theorem c8_validation_failure_requeues_witness :
    process_message 3 redisUp SendOutcome.ok [] msgNoRecipient =
      { action := QueueAction.requeue, db := [], redis := redisUp,
        published := [], attempts := [] } :=
  c8_validation_failure_requeues 3 redisUp SendOutcome.ok [] msgNoRecipient rfl

/-- C10: the idempotency ledger fails open — when the client is not
connected, or the underlying operation raises, `is_processed` returns
`False` and `mark_as_processed` returns `False` leaving the store untouched
(both are total functions: the source catches every exception); under such
an outage every request looks unprocessed, so a previously delivered
request with no leftover record is delivered again (a transport attempt is
made), and processing is never aborted. -/
theorem c10_ledger_fails_open (r : RedisState) (rid : String)
    (h : r.connected = false ∨ r.opFails = true) :
    (r.is_processed rid = false) ∧
    (r.mark_as_processed rid = (r, false)) ∧
    (∀ (db : List EmailLog) (req : DirectEmailRequest), findLog db rid = none →
        (process_email_async r SendOutcome.ok db req rid).2.2.2 = [rid]) := by
  have hp : r.is_processed rid = false := by
    rcases h with h | h <;> simp [RedisState.is_processed, h]
  refine ⟨hp, ?_, ?_⟩
  · rcases h with h | h <;> simp [RedisState.mark_as_processed, h]
  · intro db req hdb
    simp [process_email_async, hp, hdb]

/-- Witness for `c10_ledger_fails_open` with a disconnected ledger. -/
theorem c10_ledger_fails_open_witness :
    ((RedisState.mk false false ["processed:r1"]).is_processed "r1" = false) ∧
    ((RedisState.mk false false ["processed:r1"]).mark_as_processed "r1" =
      (RedisState.mk false false ["processed:r1"], false)) ∧
    ((process_email_async (RedisState.mk false false ["processed:r1"])
        SendOutcome.ok [] reqOk "r1").2.2.2 = ["r1"]) := by
  have h := c10_ledger_fails_open (RedisState.mk false false ["processed:r1"]) "r1"
    (Or.inl rfl)
  exact ⟨h.1, h.2.1, h.2.2 [] reqOk rfl⟩

end EmailService

namespace EmailService

/-- C7: with a working ledger, a requestId already marked done makes
processing a successful no-op — the record store, the ledger and the result
are untouched and no transport attempt is made, whatever the transport
would have done; and processing the same message a second time after a
successful first delivery (from a store with no leftover row) makes no
second transport attempt, no record change and no second Sent transition. -/
theorem c7_duplicate_suppression (redis : RedisState) (db : List EmailLog)
    (req : DirectEmailRequest) (rid : String)
    (hc : redis.connected = true) (hf : redis.opFails = false)
    (hdb : findLog db rid = none) :
    (∀ outcome, redis.is_processed rid = true →
        process_email_async redis outcome db req rid = (true, db, redis, [])) ∧
    (∀ outcome,
        process_email_async
            (process_email_async redis SendOutcome.ok db req rid).2.2.1 outcome
            (process_email_async redis SendOutcome.ok db req rid).2.1 req rid =
          (true, (process_email_async redis SendOutcome.ok db req rid).2.1,
                 (process_email_async redis SendOutcome.ok db req rid).2.2.1, [])) := by
  constructor
  · intro outcome h
    simp [process_email_async, h]
  · intro outcome
    by_cases hp : redis.is_processed rid = true
    · simp [process_email_async, hp]
    · have hm : ("processed:" ++ rid) ∉ redis.store := by
        simpa [RedisState.is_processed, hc, hf] using hp
      simp [process_email_async, hdb, RedisState.mark_as_processed,
        RedisState.is_processed, hc, hf, hm]

/-- Witness for `c7_duplicate_suppression`: ledger already marks `r1` done,
and delivery of `msgOk`'s request twice in a row. -/
theorem c7_duplicate_suppression_witness :
    (process_email_async redisMarkedR1 (SendOutcome.err "smtp error") [] reqOk "r1" =
        (true, [], redisMarkedR1, [])) ∧
    (process_email_async
        (process_email_async redisUp SendOutcome.ok [] reqOk "r1").2.2.1
        (SendOutcome.err "smtp error")
        (process_email_async redisUp SendOutcome.ok [] reqOk "r1").2.1 reqOk "r1" =
      (true, (process_email_async redisUp SendOutcome.ok [] reqOk "r1").2.1,
             (process_email_async redisUp SendOutcome.ok [] reqOk "r1").2.2.1, [])) :=
  ⟨(c7_duplicate_suppression redisMarkedR1 [] reqOk "r1" rfl rfl rfl).1
      (SendOutcome.err "smtp error") (by decide),
   (c7_duplicate_suppression redisUp [] reqOk "r1" rfl rfl rfl).2
      (SendOutcome.err "smtp error")⟩

theorem firstNonEmpty_cons (o : Option String) (l : List (Option String)) :
    firstNonEmpty (o :: l) = if truthy o then o else firstNonEmpty l := by
  rcases o with _ | s
  · simp [firstNonEmpty, truthy]
  · by_cases hs : s = "" <;> simp [firstNonEmpty, truthy, hs]

/-- The Python `or`-chain with a final string default equals the spec's
first-non-empty resolution with that default. -/
theorem pyOrD_firstNonEmpty2 (a b : Option String) (d : String) :
    pyOrD a (pyOrD b d) = (firstNonEmpty [a, b]).getD d := by
  rw [firstNonEmpty_cons]
  rcases a with _ | sa
  · simp only [truthy, pyOrD]
    rw [firstNonEmpty_cons]
    rcases b with _ | sb
    · simp [truthy, firstNonEmpty, pyOrD]
    · by_cases hb : sb = "" <;> simp [truthy, firstNonEmpty, pyOrD, hb]
  · by_cases ha : sa = ""
    · simp only [truthy, ha, pyOrD]
      rw [firstNonEmpty_cons]
      rcases b with _ | sb
      · simp [truthy, firstNonEmpty, pyOrD]
      · by_cases hb : sb = "" <;> simp [truthy, firstNonEmpty, pyOrD, hb]
    · simp [truthy, pyOrD, ha]

theorem pyOrD_firstNonEmpty3 (a b c : Option String) (d : String) :
    pyOrD a (pyOrD b (pyOrD c d)) = (firstNonEmpty [a, b, c]).getD d := by
  rw [firstNonEmpty_cons]
  rcases a with _ | sa
  · rw [show pyOrD none (pyOrD b (pyOrD c d)) = pyOrD b (pyOrD c d) from rfl,
      pyOrD_firstNonEmpty2]
    simp [truthy]
  · by_cases ha : sa = ""
    · subst ha
      rw [show pyOrD (some "") (pyOrD b (pyOrD c d)) = pyOrD b (pyOrD c d) from rfl,
        pyOrD_firstNonEmpty2]
      simp [truthy]
    · simp [truthy, pyOrD, ha]

/-- The Python `or`-chain over three optional fields is truthy exactly when
the spec's first-non-empty resolution produces a value, and then equals it. -/
theorem pyOr_firstNonEmpty3 (a b c : Option String) :
    (truthy (pyOr a (pyOr b c)) = (firstNonEmpty [a, b, c]).isSome) ∧
    (truthy (pyOr a (pyOr b c)) = true →
        pyOr a (pyOr b c) = firstNonEmpty [a, b, c]) := by
  rw [firstNonEmpty_cons, firstNonEmpty_cons, firstNonEmpty_cons]
  by_cases ta : truthy a = true
  · rcases a with _ | sa
    · simp [truthy] at ta
    · simp [pyOr, ta, firstNonEmpty]
  · have ta' : truthy a = false := by
      cases h : truthy a
      · rfl
      · exact absurd h ta
    by_cases tb : truthy b = true
    · rcases b with _ | sb
      · simp [truthy] at tb
      · simp [pyOr, ta', tb, firstNonEmpty]
    · have tb' : truthy b = false := by
        cases h : truthy b
        · rfl
        · exact absurd h tb
      by_cases tc : truthy c = true
      · rcases c with _ | sc
        · simp [truthy] at tc
        · simp [pyOr, ta', tb', tc, firstNonEmpty]
      · have tc' : truthy c = false := by
          cases h : truthy c
          · rfl
          · exact absurd h tc
        simp [pyOr, ta', tb', tc', firstNonEmpty]

end EmailService

namespace EmailService

/-- C9: `to_direct_email_request` resolves each field by the fixed fallback
chain — the recipient is the first non-empty of (`to_email`, `user_email`,
`email`) and normalization succeeds exactly when that chain resolves; the
subject is the first non-empty of (`subject`, `title`) with default
"Notification"; the content is the first non-empty of (`content`,
`message`, `body`) with default "You have a new notification". -/
theorem c9_field_resolution (m : MsgData) :
    ((∃ r, to_direct_email_request m = Except.ok r) ↔
        (firstNonEmpty [m.to_email, m.user_email, m.email]).isSome = true) ∧
    (∀ r, to_direct_email_request m = Except.ok r →
        some r.to_email = firstNonEmpty [m.to_email, m.user_email, m.email] ∧
        r.subject = (firstNonEmpty [m.subject, m.title]).getD "Notification" ∧
        r.content = (firstNonEmpty [m.content, m.message, m.body]).getD
          "You have a new notification") := by
  obtain ⟨hiff, heq⟩ := pyOr_firstNonEmpty3 m.to_email m.user_email m.email
  by_cases ht : truthy (pyOr m.to_email (pyOr m.user_email m.email)) = true
  · have hsome := heq ht
    obtain ⟨v, hv⟩ : ∃ v, pyOr m.to_email (pyOr m.user_email m.email) = some v := by
      rcases h : pyOr m.to_email (pyOr m.user_email m.email) with _ | v
      · rw [h] at ht; simp [truthy] at ht
      · exact ⟨v, rfl⟩
    have htv : truthy (some v) = true := by rw [← hv]; exact ht
    constructor
    · constructor
      · intro _; rw [← hiff]; exact ht
      · intro _
        refine ⟨{ to_email := v, from_email := pyOrD m.from_email "noreply@company.com",
                  subject := pyOrD m.subject (pyOrD m.title "Notification"),
                  content := pyOrD m.content (pyOrD m.message
                    (pyOrD m.body "You have a new notification")),
                  html_content := m.html_content }, ?_⟩
        simp only [to_direct_email_request]
        rw [hv]
        simp [htv]
    · intro r hr
      simp only [to_direct_email_request] at hr
      rw [hv] at hr
      simp only [htv, if_true] at hr
      have hrr : _ = r := Except.ok.inj hr
      subst hrr
      refine ⟨?_, ?_, ?_⟩
      · rw [← hsome, hv]
      · exact pyOrD_firstNonEmpty2 m.subject m.title "Notification"
      · exact pyOrD_firstNonEmpty3 m.content m.message m.body
          "You have a new notification"
  · have ht' : truthy (pyOr m.to_email (pyOr m.user_email m.email)) = false := by
      cases h : truthy (pyOr m.to_email (pyOr m.user_email m.email))
      · rfl
      · exact absurd h ht
    have herr : to_direct_email_request m =
        Except.error "No valid email address found in message" := by
      simp only [to_direct_email_request, ht']
      simp
    constructor
    · constructor
      · rintro ⟨r, hr⟩
        rw [herr] at hr
        cases hr
      · intro hs
        rw [← hiff] at hs
        exact absurd hs ht
    · intro r hr
      rw [herr] at hr
      cases hr

/-- Witness for `c9_field_resolution`: the normalization of `msgOk`. -/
theorem c9_field_resolution_witness :
    some reqOk.to_email = firstNonEmpty [msgOk.to_email, msgOk.user_email, msgOk.email] ∧
    reqOk.subject = (firstNonEmpty [msgOk.subject, msgOk.title]).getD "Notification" ∧
    reqOk.content = (firstNonEmpty [msgOk.content, msgOk.message, msgOk.body]).getD
      "You have a new notification" :=
  (c9_field_resolution msgOk).2 reqOk rfl

end EmailService

namespace EmailService

/-! Section: template renderer (`src/template_service/template_renderer.py`)

A template text is a list of segments: literal runs and `\x7b\x7bname\x7d\x7d`
variable references — the parsed form of the strings the source scans with
its regex.  An empty segment list models the empty string. -/

inductive Seg where
  | lit (s : String)
  | ref (v : String)
deriving DecidableEq, Repr

/-- The variable references of a text, in order, with duplicates. -/
def segVars : List Seg → List String
  | [] => []
  | Seg.lit _ :: rest => segVars rest
  | Seg.ref v :: rest => v :: segVars rest

/-- Source `TemplateRenderer.extract_variables`: all referenced names, duplicates
removed (the source materializes `list(set(...))`; the order is immaterial,
every use compares the result as a set). -/
def extract_variables (t : List Seg) : List String :=
  (segVars t).dedup

/-- Jinja2 rendering with `StrictUndefined`: substitute each reference,
raising (`.error`) on any unresolved one instead of producing an empty
string. -/
def renderSegs (vars : List (String × String)) : List Seg → Except String String
  | [] => Except.ok ""
  | Seg.lit s :: rest => (renderSegs vars rest).map (fun r => s ++ r)
  | Seg.ref v :: rest =>
      match vars.lookup v with
      | some val => (renderSegs vars rest).map (fun r => val ++ r)
      | none => Except.error (v ++ " is undefined")

/-- Source `TemplateRenderer.render_template`: render subject and HTML body, and
the text body only when it is truthy (`if body_text:` — absent or empty
text renders to `None`); the first failure propagates as a raised error. -/
def render_template_parts (subject body_html : List Seg)
    (body_text : Option (List Seg)) (vars : List (String × String)) :
    Except String (String × String × Option String) := do
  let s ← renderSegs vars subject
  let h ← renderSegs vars body_html
  match body_text with
  | some t =>
      if t.isEmpty then
        pure (s, h, none)
      else do
        let tt ← renderSegs vars t
        pure (s, h, some tt)
  | none => pure (s, h, none)

/-! Section: template models and service
(`src/template_service/template_models.py`, `template_service.py`)

`created_by` and the timestamp columns are not modelled (no claim mentions
them).  The `email_templates` table is a list of rows in insertion order;
the `template_versions` history table is a second list. -/

inductive TemplateStatus where
  | active | draft | archived
deriving DecidableEq, Repr

inductive TemplateType where
  | email | push | sms
deriving DecidableEq, Repr

structure EmailTemplate where
  template_code : String
  name : String
  description : Option String
  subject : List Seg
  body_html : List Seg
  body_text : Option (List Seg)
  template_type : TemplateType
  language : String
  «variables» : List String
  status : TemplateStatus
  version : Nat
  is_current : Bool
deriving DecidableEq, Repr

structure TemplateVersion where
  template_code : String
  version : Nat
  subject : List Seg
  body_html : List Seg
  body_text : Option (List Seg)
  «variables» : List String
  change_reason : Option String
deriving DecidableEq, Repr

structure TemplateCreate where
  template_code : String
  name : String
  description : Option String
  subject : List Seg
  body_html : List Seg
  body_text : Option (List Seg)
  template_type : TemplateType
  language : String
deriving DecidableEq, Repr

structure TemplateUpdate where
  name : Option String := none
  description : Option String := none
  subject : Option (List Seg) := none
  body_html : Option (List Seg) := none
  body_text : Option (List Seg) := none
  status : Option TemplateStatus := none
  change_reason : Option String := none
deriving DecidableEq, Repr

/-- Python `update_field or current_field` on template texts (`None` and
the empty string are falsy). -/
def pyOrSeg (o : Option (List Seg)) (cur : List Seg) : List Seg :=
  match o with
  | some t => if t.isEmpty then cur else t
  | none => cur

/-- Python `update_field or current_field` when the current field is itself
optional (`body_text`). -/
def pyOrOptSeg (o cur : Option (List Seg)) : Option (List Seg) :=
  match o with
  | some t => if t.isEmpty then cur else some t
  | none => cur

/-- The key predicate of the `(template_code, language)` identity. -/
def keyb (code lang : String) (t : EmailTemplate) : Bool :=
  t.template_code == code && t.language == lang

def rowsFor (db : List EmailTemplate) (code lang : String) : List EmailTemplate :=
  db.filter (keyb code lang)

/-- The rows the service's `is_current == True` select sees for a key. -/
def currentRows (db : List EmailTemplate) (code lang : String) : List EmailTemplate :=
  (rowsFor db code lang).filter (fun t => t.is_current)

/-- The text `create_template`/`update_template` scan for variables:
`f"{subject} {body_html} {body_text or ''}"`. -/
def allTextVars (subject body_html : List Seg) (body_text : Option (List Seg)) :
    List String :=
  extract_variables (subject ++ body_html ++ body_text.getD [])

/-- Commit-time check of the unique index on
`email_templates.template_code` (`template_models.py:24` declares
`template_code = Column(String, unique=True, ...)`, on the code alone): an
INSERT commits only when no existing row carries the code; otherwise the
commit raises `IntegrityError` and the transaction rolls back with nothing
persisted. -/
def template_code_free (db : List EmailTemplate) (code : String) : Bool :=
  (db.filter (fun r => r.template_code == code)).isEmpty

/-- Source `TemplateService.create_template`: error if a current row already
exists for `(code, language)` (a duplicate, or `scalar_one_or_none` raising
on several rows — either way no write happens); otherwise insert a new row
with `version = 1`, `is_current = True`, status Active and the detected
variable set — a commit the unique index on `template_code` accepts only
when no row with that code exists at all (a row under another language, or
an archived one, makes the commit raise with nothing persisted). -/
def create_template (db : List EmailTemplate) (tc : TemplateCreate) :
    Except String (List EmailTemplate) :=
  if (currentRows db tc.template_code tc.language).isEmpty then
    if template_code_free db tc.template_code then
      let row : EmailTemplate :=
        { template_code := tc.template_code, name := tc.name,
          description := tc.description, subject := tc.subject,
          body_html := tc.body_html, body_text := tc.body_text,
          template_type := tc.template_type, language := tc.language,
          «variables» := allTextVars tc.subject tc.body_html tc.body_text,
          status := TemplateStatus.active, version := 1, is_current := true }
      Except.ok (db ++ [row])
    else
      Except.error "IntegrityError: duplicate template_code"
  else
    Except.error "Template already exists"

/-- The archive-and-flip step of `update_template`
(`current_template.is_current = False`), applied to the single current row
of the key. -/
def flipCurrent (code lang : String) (t : EmailTemplate) : EmailTemplate :=
  if keyb code lang t && t.is_current then { t with is_current := false } else t

/-- Source `TemplateService.update_template`: fetch the current row (error
when absent, or when `scalar_one_or_none` sees several; nothing committed);
COMMIT the `is_current = False` flip on its own; then insert the new
current row with `version = current.version + 1` together with the history
record and commit again.  The second commit inserts a row whose
`template_code` equals the archived row's, so the unique index rejects it:
that transaction rolls back (neither the new row nor the history record is
persisted) and the function raises `IntegrityError`, with the flip commit
already durable.  The result pairs the list of committed `email_templates`
states, in order, with the outcome. -/
def update_template (db : List EmailTemplate) (hist : List TemplateVersion)
    (code lang : String) (u : TemplateUpdate) :
    List (List EmailTemplate) ×
      Except String (List EmailTemplate × List TemplateVersion) :=
  match currentRows db code lang with
  | [cur] =>
      let db1 := db.map (flipCurrent code lang)
      let subject' := pyOrSeg u.subject cur.subject
      let body_html' := pyOrSeg u.body_html cur.body_html
      let body_text' := pyOrOptSeg u.body_text cur.body_text
      let new_template : EmailTemplate :=
        { template_code := cur.template_code, name := pyOrD u.name cur.name,
          description := pyOr u.description cur.description,
          subject := subject', body_html := body_html', body_text := body_text',
          template_type := cur.template_type, language := cur.language,
          «variables» := allTextVars subject' body_html' body_text',
          status := u.status.getD cur.status, version := cur.version + 1,
          is_current := true }
      let version_history : TemplateVersion :=
        { template_code := cur.template_code, version := cur.version,
          subject := cur.subject, body_html := cur.body_html,
          body_text := cur.body_text, «variables» := cur.«variables»,
          change_reason := u.change_reason }
      if template_code_free db1 new_template.template_code then
        ([db1, db1 ++ [new_template]],
         Except.ok (db1 ++ [new_template], hist ++ [version_history]))
      else
        ([db1], Except.error "IntegrityError: duplicate template_code")
  | _ => ([], Except.error "Template not found")

inductive TplOp where
  | create (tc : TemplateCreate)
  | update (code lang : String) (u : TemplateUpdate)
deriving DecidableEq, Repr

/-- One service operation: the resulting durable state and the list of
committed states of the `email_templates` table it produced, in order.  An
operation that raises keeps whatever it had already committed (for
`update_template`, the archive-flip commit) and commits nothing further. -/
def applyOp (db : List EmailTemplate) (hist : List TemplateVersion) :
    TplOp → (List EmailTemplate × List TemplateVersion) × List (List EmailTemplate)
  | TplOp.create tc =>
      match create_template db tc with
      | Except.ok db' => ((db', hist), [db'])
      | Except.error _ => ((db, hist), [])
  | TplOp.update code lang u =>
      match update_template db hist code lang u with
      | (states, Except.ok fin) => (fin, states)
      | (states, Except.error _) => ((states.getLast?.getD db, hist), states)

/-- Run a sequence of operations from a state, collecting every committed
state of the `email_templates` table. -/
def runOps (db : List EmailTemplate) (hist : List TemplateVersion) :
    List TplOp → (List EmailTemplate × List TemplateVersion) × List (List EmailTemplate)
  | [] => ((db, hist), [])
  | op :: ops =>
      let (st, states) := applyOp db hist op
      let (st', states') := runOps st.1 st.2 ops
      (st', states ++ states')

end EmailService

namespace EmailService

theorem flip_code (c l : String) (t : EmailTemplate) :
    (flipCurrent c l t).template_code = t.template_code := by
  unfold flipCurrent
  split <;> rfl

theorem template_code_free_false_of_mem (db : List EmailTemplate)
    (code : String) (r : EmailTemplate) (hr : r ∈ db)
    (hcode : r.template_code = code) : template_code_free db code = false := by
  unfold template_code_free
  cases hf : db.filter (fun x => x.template_code == code) with
  | nil =>
      exfalso
      have hmem : r ∈ db.filter (fun x => x.template_code == code) :=
        List.mem_filter.mpr ⟨hr, by simp [hcode]⟩
      rw [hf] at hmem
      simp at hmem
  | cons a as => rfl

/-- No call of `update_template` ever returns successfully: when the
current row is found, the archived row keeps `cur.template_code`, so the
insert of the new version always violates the unique index on
`template_code` and raises after the flip commit; otherwise the fetch
itself raises. -/
theorem update_template_raises (db : List EmailTemplate) (hist : List TemplateVersion)
    (code lang : String) (u : TemplateUpdate) :
    ∃ e, (update_template db hist code lang u).2 = Except.error e := by
  unfold update_template
  cases hcur : currentRows db code lang with
  | nil => exact ⟨_, rfl⟩
  | cons cur rest =>
    cases rest with
    | cons a as => exact ⟨_, rfl⟩
    | nil =>
        have hmem : cur ∈ db := by
          have h1 : cur ∈ currentRows db code lang := by
            rw [hcur]
            exact List.mem_singleton.mpr rfl
          exact (List.mem_filter.mp (List.mem_filter.mp h1).1).1
        have hfree : template_code_free (db.map (flipCurrent code lang))
            cur.template_code = false :=
          template_code_free_false_of_mem _ _ _
            (List.mem_map_of_mem _ hmem) (flip_code code lang cur)
        simp only [hfree, Bool.false_eq_true, if_false]
        exact ⟨_, rfl⟩

/-- The create operation of the C5 scenario: template "welcome"/en. -/
def tplCreateEx : TemplateCreate :=
  { template_code := "welcome", name := "Welcome", description := none,
    subject := [Seg.ref "name"], body_html := [Seg.lit "Hello"], body_text := none,
    template_type := TemplateType.email, language := "en" }

/-- The update of the C5 scenario: replace the subject. -/
def tplUpdateEx : TemplateUpdate :=
  { subject := some [Seg.lit "Hi"], change_reason := some "edit" }

/-- C5: the claimed atomic versioning update is unachievable in the code —
no update ever durably completes.  `update_template` commits the
archive-flip in its own transaction, and the subsequent insert of the new
version reuses the same `template_code`, violating the unique index on
`email_templates.template_code` and raising on every input (first
conjunct).  Concretely, create("welcome","en") followed by an update leaves
the durable current-row counts over the committed states at [1, 0] — the
second commit never exists — the update raises `IntegrityError`, and the
final durable table is a single archived version-1 row: zero current rows
for the key and no version 2, permanently, refuting exactly-one-current,
contiguous multi-version chains, and the single-transaction claim alike. -/
theorem c5_update_never_commits :
    (∀ (db : List EmailTemplate) (hist : List TemplateVersion) (code lang : String)
        (u : TemplateUpdate),
        ∃ e, (update_template db hist code lang u).2 = Except.error e) ∧
    ((runOps [] [] [TplOp.create tplCreateEx,
        TplOp.update "welcome" "en" tplUpdateEx]).2.map
      (fun s => (currentRows s "welcome" "en").length) = [1, 0]) ∧
    ((update_template (runOps [] [] [TplOp.create tplCreateEx]).1.1 []
        "welcome" "en" tplUpdateEx).2 =
      Except.error "IntegrityError: duplicate template_code") ∧
    ((runOps [] [] [TplOp.create tplCreateEx,
        TplOp.update "welcome" "en" tplUpdateEx]).1.1.map
      (fun t => (t.version, t.is_current)) = [(1, false)]) :=
  ⟨update_template_raises, by decide, rfl, by decide⟩

end EmailService

namespace EmailService

inductive RenderError where
  | missingVariables (missing : Finset String)
  | renderFailure (msg : String)
deriving DecidableEq

/-- Source `TemplateService.render_template` on a fetched template row: compute
`missing = set(template.variables) - set(variables.keys())`, raise carrying
exactly that set when it is non-empty, otherwise run the strict renderer
(whose own failure raises a distinct rendering error). -/
def render_template (t : EmailTemplate) (vars : List (String × String)) :
    Except RenderError (String × String × Option String) :=
  if t.«variables».toFinset \ (vars.map Prod.fst).toFinset = ∅ then
    match render_template_parts t.subject t.body_html t.body_text vars with
    | Except.ok r => Except.ok r
    | Except.error m => Except.error (RenderError.renderFailure m)
  else
    Except.error (RenderError.missingVariables
      (t.«variables».toFinset \ (vars.map Prod.fst).toFinset))

theorem lookup_isSome_iff (P : List (String × String)) (v : String) :
    (P.lookup v).isSome = true ↔ v ∈ P.map Prod.fst := by
  induction P with
  | nil => simp [List.lookup]
  | cons p ps ih =>
      obtain ⟨a, b⟩ := p
      by_cases h : v = a
      · subst h
        simp [List.lookup]
      · have hbeq : (v == a) = false := beq_eq_false_iff_ne.mpr h
        simp only [List.lookup, hbeq]
        rw [ih]
        simp [h]

theorem segVars_append (u w : List Seg) : segVars (u ++ w) = segVars u ++ segVars w := by
  induction u with
  | nil => rfl
  | cons s rest ih => cases s <;> simp [segVars, ih]

/-- The strict renderer succeeds exactly when every referenced variable is
among the provided keys. -/
theorem renderSegs_isOk_iff (P : List (String × String)) (u : List Seg) :
    (∃ s, renderSegs P u = Except.ok s) ↔ ∀ v ∈ segVars u, v ∈ P.map Prod.fst := by
  induction u with
  | nil => simp [renderSegs, segVars]
  | cons seg rest ih =>
      cases seg with
      | lit s =>
          simp only [renderSegs, segVars]
          constructor
          · rintro ⟨r, hr⟩
            cases hrr : renderSegs P rest with
            | ok s2 => exact ih.mp ⟨s2, hrr⟩
            | error e => rw [hrr] at hr; simp [Except.map] at hr
          · intro hall
            obtain ⟨s2, hs2⟩ := ih.mpr hall
            exact ⟨s ++ s2, by rw [hs2]; rfl⟩
      | ref v =>
          simp only [renderSegs, segVars]
          cases hl : P.lookup v with
          | none =>
              constructor
              · rintro ⟨r, hr⟩
                simp at hr
              · intro hall
                have hv : v ∈ P.map Prod.fst := hall v (List.mem_cons_self v _)
                rw [← lookup_isSome_iff, hl] at hv
                simp at hv
          | some val =>
              constructor
              · rintro ⟨r, hr⟩
                intro w hw
                rcases List.mem_cons.mp hw with rfl | hw'
                · rw [← lookup_isSome_iff, hl]
                  rfl
                · cases hrr : renderSegs P rest with
                  | ok s2 => exact ih.mp ⟨s2, hrr⟩ w hw'
                  | error e => rw [hrr] at hr; simp [Except.map] at hr
              · intro hall
                obtain ⟨s2, hs2⟩ := ih.mpr (fun w hw => hall w (List.mem_cons_of_mem _ hw))
                exact ⟨val ++ s2, by rw [hs2]; rfl⟩

/-- An unresolved reference makes the strict renderer raise (it never
silently substitutes an empty string). -/
theorem renderSegs_error_of_unresolved (P : List (String × String)) (u : List Seg)
    (v : String) (hv : v ∈ segVars u) (hnv : v ∉ P.map Prod.fst) :
    ∃ e, renderSegs P u = Except.error e := by
  cases hr : renderSegs P u with
  | ok s => exact absurd ((renderSegs_isOk_iff P u).mp ⟨s, hr⟩ v hv) hnv
  | error e => exact ⟨e, rfl⟩

theorem render_parts_ok (subject body_html : List Seg) (body_text : Option (List Seg))
    (P : List (String × String))
    (hs : ∀ v ∈ segVars subject, v ∈ P.map Prod.fst)
    (hh : ∀ v ∈ segVars body_html, v ∈ P.map Prod.fst)
    (ht : ∀ v ∈ segVars (body_text.getD []), v ∈ P.map Prod.fst) :
    ∃ r, render_template_parts subject body_html body_text P = Except.ok r := by
  obtain ⟨s, hsok⟩ := (renderSegs_isOk_iff P subject).mpr hs
  obtain ⟨h1, hhok⟩ := (renderSegs_isOk_iff P body_html).mpr hh
  cases body_text with
  | none =>
      exact ⟨(s, h1, none), by simp [render_template_parts, hsok, hhok]; rfl⟩
  | some t =>
      by_cases hte : t.isEmpty
      · exact ⟨(s, h1, none), by simp [render_template_parts, hsok, hhok, hte]; rfl⟩
      · obtain ⟨tt, httok⟩ := (renderSegs_isOk_iff P t).mpr (by simpa using ht)
        exact ⟨(s, h1, some tt),
          by simp [render_template_parts, hsok, hhok, hte, httok]; rfl⟩

end EmailService

namespace EmailService

/-- C6: for a template whose stored variable set is the one the service
detects from its texts (as `create_template`/`update_template` guarantee),
`render_template` succeeds iff the declared variable set V is contained in
the provided keys; a missing-variables failure carries exactly `V - keys`;
and the strict renderer raises on any unresolved reference instead of
producing empty output. -/
theorem c6_render_completeness (t : EmailTemplate) (P : List (String × String))
    (hvars : t.«variables» = allTextVars t.subject t.body_html t.body_text) :
    ((∃ r, render_template t P = Except.ok r) ↔
        t.«variables».toFinset ⊆ (P.map Prod.fst).toFinset) ∧
    (∀ s, render_template t P = Except.error (RenderError.missingVariables s) →
        s = t.«variables».toFinset \ (P.map Prod.fst).toFinset) ∧
    (∀ (u : List Seg) (v : String), v ∈ segVars u → v ∉ P.map Prod.fst →
        ∃ e, renderSegs P u = Except.error e) := by
  refine ⟨?_, ?_, ?_⟩
  · constructor
    · rintro ⟨r, hr⟩
      unfold render_template at hr
      by_cases hm : t.«variables».toFinset \ (P.map Prod.fst).toFinset = ∅
      · exact Finset.sdiff_eq_empty_iff_subset.mp hm
      · rw [if_neg hm] at hr
        simp at hr
    · intro hsub
      have hm : t.«variables».toFinset \ (P.map Prod.fst).toFinset = ∅ :=
        Finset.sdiff_eq_empty_iff_subset.mpr hsub
      have hres : ∀ v ∈ segVars (t.subject ++ t.body_html ++ t.body_text.getD []),
          v ∈ P.map Prod.fst := by
        intro v hv
        have hvV : v ∈ t.«variables» := by
          rw [hvars]
          unfold allTextVars extract_variables
          exact List.mem_dedup.mpr hv
        have : v ∈ (P.map Prod.fst).toFinset := hsub (List.mem_toFinset.mpr hvV)
        exact List.mem_toFinset.mp this
      obtain ⟨r, hrok⟩ := render_parts_ok t.subject t.body_html t.body_text P
        (fun v hv => hres v (by rw [segVars_append, segVars_append]
                                exact List.mem_append.mpr (Or.inl (List.mem_append.mpr (Or.inl hv)))))
        (fun v hv => hres v (by rw [segVars_append, segVars_append]
                                exact List.mem_append.mpr (Or.inl (List.mem_append.mpr (Or.inr hv)))))
        (fun v hv => hres v (by rw [segVars_append, segVars_append]
                                exact List.mem_append.mpr (Or.inr hv)))
      refine ⟨r, ?_⟩
      unfold render_template
      rw [if_pos hm, hrok]
  · intro s hs
    unfold render_template at hs
    by_cases hm : t.«variables».toFinset \ (P.map Prod.fst).toFinset = ∅
    · rw [if_pos hm] at hs
      cases hp : render_template_parts t.subject t.body_html t.body_text P with
      | ok r => rw [hp] at hs; simp at hs
      | error m => rw [hp] at hs; simp at hs
    · rw [if_neg hm] at hs
      simp only [Except.error.injEq, RenderError.missingVariables.injEq] at hs
      exact hs.symm
  · intro u v hv hnv
    exact renderSegs_error_of_unresolved P u v hv hnv

/-- The row `create_template` produces for the C6 scenario. -/
def tplWelcomeEx : EmailTemplate :=
  { template_code := "welcome", name := "Welcome", description := none,
    subject := [Seg.ref "name"], body_html := [Seg.lit "Hello ", Seg.ref "order_id"],
    body_text := none, template_type := TemplateType.email, language := "en",
    «variables» := allTextVars [Seg.ref "name"]
      [Seg.lit "Hello ", Seg.ref "order_id"] none,
    status := TemplateStatus.active, version := 1, is_current := true }

/-- Witness for `c6_render_completeness`: the two-variable template with
only "name" provided. -/
theorem c6_render_completeness_witness :
    ((∃ r, render_template tplWelcomeEx [("name", "Ann")] = Except.ok r) ↔
        tplWelcomeEx.«variables».toFinset ⊆
          (([("name", "Ann")] : List (String × String)).map Prod.fst).toFinset) ∧
    (∀ s, render_template tplWelcomeEx [("name", "Ann")] =
          Except.error (RenderError.missingVariables s) →
        s = tplWelcomeEx.«variables».toFinset \
          (([("name", "Ann")] : List (String × String)).map Prod.fst).toFinset) ∧
    (∀ (u : List Seg) (v : String), v ∈ segVars u →
        v ∉ ([("name", "Ann")] : List (String × String)).map Prod.fst →
        ∃ e, renderSegs [("name", "Ann")] u = Except.error e) :=
  c6_render_completeness tplWelcomeEx [("name", "Ann")] rfl

end EmailService
